import Mathlib

/-!
Shallow embedding of the client-directory core of `src/app.py`:
phone normalization (`normalize_phone`), IBAN bank classification
(`IBANDetector.clean_iban` / `detect_local` / `detect_bank`), the
pipe-file ingestion loop (`load_clients_from_pipe_file`) and the
lookup operation (`get_client_info`) over the in-memory
`clients_database` dictionary.

Python strings are modelled as Lean `String`, with the character-level
operations (strip, split, regex shapes) carried out on `List Char`.
Python `dict` is modelled as an association list in insertion order
(`Directory`), with key assignment updating the first matching entry
in place and appending otherwise, matching CPython dict semantics.
-/

namespace RenderOvh

/-- Python whitespace set used by `str.strip` and the regex class `\s`
(ASCII range: space, tab, newline, carriage return, vertical tab, form feed). -/
def pyIsSpace (c : Char) : Bool :=
  c == ' ' || c == '\t' || c == '\n' || c == '\r' || c == '\x0b' || c == '\x0c'

/-- `str.strip()` on a character list: drop whitespace at both ends. -/
def pyStripL (l : List Char) : List Char :=
  ((l.dropWhile pyIsSpace).reverse.dropWhile pyIsSpace).reverse

/-- `str.strip()` on a string. -/
def pyStrip (s : String) : String :=
  (pyStripL s.toList).asString

/-- `str.split(sep)` on a character list (Python splits on every
occurrence, keeping empty fields; splitting the empty string gives
one empty field). -/
def splitChar (sep : Char) : List Char → List (List Char)
  | [] => [[]]
  | c :: rest =>
    if c == sep then
      [] :: splitChar sep rest
    else
      match splitChar sep rest with
      | r :: rs => (c :: r) :: rs
      | [] => [[c]]

/-- `str.split(sep)` on a string. -/
def pySplit (sep : Char) (s : String) : List String :=
  (splitChar sep s.toList).map List.asString

/-- `str.split(sep, 1)`: split at the first occurrence only; `none`
when the separator does not occur. -/
def splitFirstAux (sep : Char) : List Char → Option (List Char × List Char)
  | [] => none
  | c :: rest =>
    if c == sep then some ([], rest)
    else (splitFirstAux sep rest).map (fun p => (c :: p.1, p.2))

/-- `line 425`: `re.sub(r'[^\d+]', '', str(phone))` — keep only decimal
digits and plus signs (every occurrence of `+` is kept, wherever it is). -/
def clean_phone (phone : String) : String :=
  (phone.toList.filter (fun c => c.isDigit || c == '+')).asString

/-- One anchored pattern `^pfx(\d{n})$` of the `patterns` list at
`lines 427-433`: the cleaned string must consist of the fixed prefix
followed by exactly `n` digits; the digit group is returned. -/
def matchShape (pfx : List Char) (n : Nat) (l : List Char) : Option (List Char) :=
  if l.take pfx.length == pfx then
    let rest := l.drop pfx.length
    if rest.length == n && rest.all Char.isDigit then some rest else none
  else none

/-- `lines 438-440`: the transform `'0' + m.group(1)` followed by the
validation `len(result) == 10 and result.startswith('0')`. -/
def acceptGroup (grp : List Char) : Option String :=
  let result := '0' :: grp
  if result.length == 10 && (result.take 1 == ['0']) then
    some result.asString
  else none

/-- `normalize_phone` (`lines 422-441`): clean the input, then try the
five anchored shapes in order (`0033`, `+33`, `33`, `0`, bare nine
digits, each followed by nine digits); the first shape that matches and
validates wins; otherwise `none`. -/
def normalize_phone (phone : String) : Option String :=
  if phone == "" then none
  else
    let cleaned := (clean_phone phone).toList
    ((matchShape ['0', '0', '3', '3'] 9 cleaned).bind acceptGroup).orElse fun _ =>
    ((matchShape ['+', '3', '3'] 9 cleaned).bind acceptGroup).orElse fun _ =>
    ((matchShape ['3', '3'] 9 cleaned).bind acceptGroup).orElse fun _ =>
    ((matchShape ['0'] 9 cleaned).bind acceptGroup).orElse fun _ =>
    ((matchShape [] 9 cleaned).bind acceptGroup)

/-- `IBANDetector.local_banks` (`lines 121-228`): the general bank table,
as a key/value list in source order. The Python source is a single dict
literal, so a key repeated further down overwrites the earlier binding. -/
def local_banks : List (String × String) := [
  ("10907", "BNP Paribas"),
  ("30004", "BNP Paribas"),
  ("30001", "BNP Paribas"),
  ("10108", "BNP Paribas"),
  ("30003", "Société Générale"),
  ("30002", "Société Générale"),
  ("20041", "La Banque Postale"),
  ("30056", "BRED"),
  ("10107", "BRED Banque Populaire"),
  ("10278", "Crédit Mutuel"),
  ("10068", "Crédit Mutuel Anjou"),
  ("10096", "Crédit Mutuel Océan"),
  ("10138", "Crédit Mutuel Maine-Anjou"),
  ("10758", "Crédit Mutuel Nord Europe"),
  ("10518", "Crédit Mutuel Île-de-France"),
  ("10798", "Crédit Mutuel Dauphiné-Vivarais"),
  ("10838", "Crédit Mutuel Midi-Atlantique"),
  ("10548", "Crédit Mutuel Centre"),
  ("10878", "Crédit Mutuel Savoie-Mont Blanc"),
  ("10738", "Crédit Mutuel Loire-Atlantique Centre Ouest"),
  ("10207", "Crédit Mutuel"),
  ("10906", "CIC"),
  ("11027", "CIC Lyonnaise de Banque"),
  ("11315", "CIC Ouest"),
  ("11516", "CIC Est"),
  ("11706", "CIC Sud Ouest"),
  ("30066", "CIC"),
  ("10107", "Banque Populaire"),
  ("13357", "Banque Populaire Auvergne Rhône Alpes"),
  ("11455", "Banque Populaire Bourgogne Franche-Comté"),
  ("12455", "Banque Populaire Grand Ouest"),
  ("13135", "Banque Populaire Méditerranée"),
  ("13825", "Banque Populaire Occitane"),
  ("14445", "Banque Populaire Rives de Paris"),
  ("14559", "Banque Populaire Val de France"),
  ("17068", "Banque Populaire Alsace Lorraine Champagne"),
  ("18315", "Banque Populaire du Nord"),
  ("18415", "Banque Populaire"),
  ("10695", "Caisse d\x27Épargne"),
  ("10778", "Caisse d\x27Épargne Île-de-France"),
  ("11315", "Caisse d\x27Épargne Loire-Centre"),
  ("12135", "Caisse d\x27Épargne Provence-Alpes-Corse"),
  ("12548", "Caisse d\x27Épargne Aquitaine Poitou-Charentes"),
  ("12755", "Caisse d\x27Épargne Midi-Pyrénées"),
  ("13625", "Caisse d\x27Épargne Bretagne-Pays de Loire"),
  ("13715", "Caisse d\x27Épargne Côte d\x27Azur"),
  ("15135", "Caisse d\x27Épargne Bourgogne Franche-Comté"),
  ("15589", "Caisse d\x27Épargne Loire Drôme Ardèche"),
  ("16515", "Caisse d\x27Épargne Grand Est Europe"),
  ("17515", "Caisse d\x27Épargne Hauts de France"),
  ("18315", "Caisse d\x27Épargne Normandie"),
  ("17906", "Caisse d\x27Épargne Rhône Alpes"),
  ("16798", "ING Direct"),
  ("12548", "Boursorama"),
  ("17515", "Monabanq"),
  ("18206", "N26"),
  ("16958", "Hello Bank"),
  ("13698", "Fortuneo"),
  ("15589", "BforBank"),
  ("12968", "Orange Bank"),
  ("30002", "LCL - Le Crédit Lyonnais"),
  ("30005", "LCL"),
  ("30027", "Crédit Coopératif"),
  ("30056", "BRED"),
  ("13506", "Crédit du Nord"),
  ("10479", "Banque Kolb"),
  ("10529", "Banque Nuger"),
  ("10589", "Banque Laydernier"),
  ("10609", "Banque Rhône-Alpes"),
  ("10868", "Banque Tarneaud"),
  ("15589", "Banque Palatine"),
  ("18315", "Société Marseillaise de Crédit"),
  ("30006", "HSBC France"),
  ("30007", "Barclays"),
  ("12739", "Crédit Foncier"),
  ("13134", "Banque Accord"),
  ("15135", "Banque Casino"),
  ("16958", "Revolut"),
  ("18206", "N26"),
  ("17515", "Qonto"),
  ("12968", "Nickel")]

/-- `IBANDetector.codes_ca` (`lines 231-282`): the Crédit Agricole
table, as a key/value list in source order. -/
def codes_ca : List (String × String) := [
  ("13906", "Crédit Agricole Centre-Est"),
  ("14706", "Crédit Agricole Atlantique Vendée"),
  ("18706", "Crédit Agricole Île-de-France"),
  ("16906", "Crédit Agricole Pyrénées Gascogne"),
  ("18206", "Crédit Agricole Nord-Est"),
  ("11706", "Crédit Agricole Charente Périgord"),
  ("10206", "Crédit Agricole Nord de France"),
  ("13306", "Crédit Agricole Aquitaine"),
  ("13606", "Crédit Agricole Centre Ouest"),
  ("14506", "Crédit Agricole Centre Loire"),
  ("16606", "Crédit Agricole Normandie-Seine"),
  ("17206", "Crédit Agricole Alsace Vosges"),
  ("17906", "Crédit Agricole Anjou Maine"),
  ("12406", "Crédit Agricole Charente-Maritime"),
  ("12906", "Crédit Agricole Finistère"),
  ("12206", "Crédit Agricole Morbihan"),
  ("14806", "Crédit Agricole Languedoc"),
  ("17106", "Crédit Agricole Loire Haute-Loire"),
  ("11206", "Crédit Agricole Brie Picardie"),
  ("13106", "Crédit Agricole Alpes Provence"),
  ("14406", "Crédit Agricole Ille-et-Vilaine"),
  ("16106", "Crédit Agricole Deux-Sèvres"),
  ("16706", "Crédit Agricole Sud Rhône Alpes"),
  ("17306", "Crédit Agricole Sud Méditerranée"),
  ("18106", "Crédit Agricole Touraine Poitou"),
  ("19106", "Crédit Agricole Centre France"),
  ("12506", "Crédit Agricole Loire Océan"),
  ("13206", "Crédit Agricole Midi-Pyrénées"),
  ("14206", "Crédit Agricole Normandie"),
  ("15206", "Crédit Agricole Savoie Mont Blanc"),
  ("16206", "Crédit Agricole Franche-Comté"),
  ("17606", "Crédit Agricole Lorraine"),
  ("18406", "Crédit Agricole Val de France"),
  ("19406", "Crédit Agricole Provence Côte d\x27Azur"),
  ("19906", "Crédit Agricole Côtes d\x27Armor"),
  ("16806", "Crédit Agricole Cantal Auvergne"),
  ("12006", "Crédit Agricole Corse"),
  ("11006", "Crédit Agricole Champagne-Bourgogne"),
  ("16006", "Crédit Agricole Morbihan"),
  ("17806", "Crédit Agricole Centre-Est"),
  ("13506", "Crédit Agricole Languedoc"),
  ("18306", "Crédit Agricole Normandie"),
  ("11306", "Crédit Agricole Alpes Provence"),
  ("30002", "Crédit Agricole"),
  ("11315", "Crédit Agricole"),
  ("13335", "Crédit Agricole")]

/-- `dict.get` over a key/value list built left to right, so the
LAST binding of a key wins (Python dict-literal overwrite semantics). -/
def pyDictGet (l : List (String × String)) (k : String) : Option String :=
  l.foldl (fun acc p => if p.1 == k then some p.2 else acc) none

/-- `line 285`: `self.all_banks = {**self.local_banks, **self.codes_ca}` —
a `codes_ca` binding overrides a `local_banks` binding for the same key. -/
def all_banks_get (k : String) : Option String :=
  match pyDictGet codes_ca k with
  | some v => some v
  | none => pyDictGet local_banks k

/-- `IBANDetector.clean_iban` (`lines 292-295`): empty guard, then
remove spaces and hyphens and uppercase. -/
def clean_iban (iban : String) : String :=
  if iban == "" then ""
  else ((iban.toList.filter (fun c => !(c == ' ') && !(c == '-'))).map Char.toUpper).asString

/-- `iban_clean.startswith('FR')` as a character-list test. -/
def startsWithFR (l : List Char) : Bool :=
  match l with
  | 'F' :: 'R' :: _ => true
  | _ => false

/-- `IBANDetector.detect_local` (`lines 297-320`): foreign guard, length
guard, then lookup of `iban_clean[4:9]` in the merged table with the
"Banque française (code)" fallback. -/
def detect_local (iban_clean : String) : String :=
  if !(startsWithFR iban_clean.toList) then "Banque étrangère"
  else if iban_clean.toList.length < 14 then "IBAN invalide"
  else
    let code_banque := ((iban_clean.toList.drop 4).take 5).asString
    match all_banks_get code_banque with
    | some bank_name => bank_name
    | none => "Banque française (" ++ code_banque ++ ")"

/-- `IBANDetector.detect_bank` (`lines 322-331`): empty-input guards
(both on the raw and on the cleaned IBAN) return "N/A", otherwise
delegate to `detect_local`. -/
def detect_bank (iban : String) : String :=
  if iban == "" then "N/A"
  else
    let iban_clean := clean_iban iban
    if iban_clean == "" then "N/A"
    else detect_local iban_clean

/-- One value of the `clients_database` dictionary, with the exact field
set built at `lines 562-583` and `lines 603-612` of the source
(`nb_appels` is a count, `dernier_appel` is nullable). -/
structure ClientRecord where
  nom : String
  prenom : String
  email : String
  entreprise : String
  telephone : String
  adresse : String
  ville : String
  code_postal : String
  banque : String
  swift : String
  iban : String
  sexe : String
  date_naissance : String
  lieu_naissance : String
  profession : String
  statut : String
  date_upload : String
  nb_appels : Nat
  dernier_appel : Option String
  notes : String
deriving Repr, DecidableEq

/-- The `clients_database` dictionary: an association list in insertion
order, keyed by canonical phone. -/
abbrev Directory := List (String × ClientRecord)

/-- `clients_database[k]` as an option: first entry with the key. -/
def dirLookup (d : Directory) (k : String) : Option ClientRecord :=
  match d with
  | [] => none
  | (k0, v0) :: rest => if k0 == k then some v0 else dirLookup rest k

/-- `clients_database[k] = v`: Python dict assignment updates an
existing key in place (keeping its position) and appends a new key. -/
def dirInsert : Directory → String → ClientRecord → Directory
  | [], k, v => [(k, v)]
  | (k0, v0) :: rest, k, v =>
    if k0 == k then (k0, v) :: rest else (k0, v0) :: dirInsert rest k v

/-- `create_unknown_client` (`lines 603-612`): the synthesized record
for a failed lookup, with the raw input phone kept verbatim. -/
def create_unknown_client (phone_number : String) : ClientRecord :=
  { nom := "INCONNU", prenom := "CLIENT", email := "N/A",
    entreprise := "N/A", adresse := "N/A", ville := "N/A",
    code_postal := "N/A", telephone := phone_number,
    banque := "N/A", swift := "N/A", iban := "N/A",
    sexe := "N/A", date_naissance := "N/A", lieu_naissance := "N/A",
    profession := "N/A", statut := "Non référencé",
    date_upload := "N/A", nb_appels := 0, dernier_appel := none,
    notes := "" }

/-- `get_client_info` (`lines 443-455`). State-passing model: `now` is
the `datetime.now().strftime(...)` string, the returned pair is
(returned record, directory afterwards). On a hit the stored record is
copied FIRST, then the stored record gets `nb_appels += 1` and a fresh
`dernier_appel`; the pre-mutation copy is returned. -/
def get_client_info (db : Directory) (now : String) (phone_number : String) :
    ClientRecord × Directory :=
  if phone_number == "" then (create_unknown_client phone_number, db)
  else
    match normalize_phone phone_number with
    | some normalized =>
      match dirLookup db normalized with
      | some client =>
        (client,
         dirInsert db normalized
           { client with nb_appels := client.nb_appels + 1, dernier_appel := some now })
      | none => (create_unknown_client phone_number, db)
    | none => (create_unknown_client phone_number, db)

/-- `nom_complet.split(' ', 1)` followed by the two-part test at
`lines 508-514`: first token is the last name, the remainder (possibly
empty) the first name; with no space the whole string is the last name. -/
def splitNom (nom_complet : String) : String × String :=
  match splitFirstAux ' ' nom_complet.toList with
  | some (a, b) => (a.asString, b.asString)
  | none => (nom_complet, "")

/-- The tail test of `re.match(r'(.+?)\s*\((\d{5})\)', ...)` at one
split position: greedily drop whitespace, then require a literal
parenthesized run of exactly five digits; returns the digit group. -/
def villeTail (l : List Char) : Option (List Char) :=
  match l.dropWhile pyIsSpace with
  | '(' :: d1 :: d2 :: d3 :: d4 :: d5 :: ')' :: _ =>
    if [d1, d2, d3, d4, d5].all Char.isDigit then some [d1, d2, d3, d4, d5]
    else none
  | _ => none

/-- The lazy scan of `(.+?)`: grow group 1 one character at a time
(never across a newline, which `.` does not match) and stop at the
first position where the parenthesized postal code follows. -/
def villeScan (acc : List Char) : List Char → Option (List Char × List Char)
  | [] => none
  | c :: rest =>
    if c == '\n' then none
    else
      match villeTail rest with
      | some digits => some ((c :: acc).reverse, digits)
      | none => villeScan (c :: acc) rest

/-- `lines 516-523`: on a regex match, city is the stripped group 1 and
the postal code is group 2; otherwise the whole field is the city and
the postal code is empty. -/
def villeParse (ville_code : String) : String × String :=
  match villeScan [] ville_code.toList with
  | some (g1, digits) => ((pyStripL g1).asString, digits.asString)
  | none => (ville_code, "")

/-- The inlined bank classification of the load path (`lines 525-560`),
without the diagnostic counters: empty IBAN gives "N/A", otherwise the
detected label is prefixed with the bank emoji. -/
def loadBankLabel (iban : String) : String :=
  if iban == "" then "N/A"
  else
    let iban_clean := clean_iban iban
    let banque_detectee :=
      if iban_clean.toList.length < 14 || !(startsWithFR iban_clean.toList) then
        if !(startsWithFR iban_clean.toList) then "Banque étrangère"
        else "IBAN invalide"
      else
        let code_banque := ((iban_clean.toList.drop 4).take 5).asString
        match all_banks_get code_banque with
        | some name => name
        | none => "Banque française (" ++ code_banque ++ ")"
    "🏦 " ++ banque_detectee

/-- One iteration of the ingestion loop (`lines 481-584`): skip blank
lines, split on the pipe, require at least seven fields, strip each
field, normalize the phone (skipping the line when that fails), then
build the stored record. Returns the canonical key and the record. -/
def parseLine (now : String) (line : String) : Option (String × ClientRecord) :=
  if pyStrip line == "" then none
  else
    let parts := pySplit '|' line
    if parts.length < 7 then none
    else
      let telephone_raw := pyStrip (parts.getD 0 "")
      let nom_complet := if parts.length > 1 then pyStrip (parts.getD 1 "") else ""
      let date_naissance := if parts.length > 2 then pyStrip (parts.getD 2 "") else ""
      let email := if parts.length > 3 then pyStrip (parts.getD 3 "") else ""
      let adresse := if parts.length > 4 then pyStrip (parts.getD 4 "") else ""
      let ville_code := if parts.length > 5 then pyStrip (parts.getD 5 "") else ""
      let iban := if parts.length > 6 then pyStrip (parts.getD 6 "") else ""
      let swift := if parts.length > 7 then pyStrip (parts.getD 7 "") else ""
      match normalize_phone telephone_raw with
      | none => none
      | some telephone =>
        let np := splitNom nom_complet
        let vc := villeParse ville_code
        some (telephone,
          { nom := np.1, prenom := np.2, email := email, entreprise := "N/A",
            telephone := telephone, adresse := adresse, ville := vc.1,
            code_postal := vc.2, banque := loadBankLabel iban, swift := swift,
            iban := iban, sexe := "N/A", date_naissance := date_naissance,
            lieu_naissance := "N/A", profession := "N/A", statut := "Prospect",
            date_upload := now, nb_appels := 0, dernier_appel := none,
            notes := "" })

/-- `file_content.strip().split('\n')` (`line 463`). -/
def loadLines (file_content : String) : List String :=
  (splitChar '\n' (pyStripL file_content.toList)).map List.asString

/-- The `for line in lines` loop (`lines 481-587`): fold over the lines,
inserting each parsed record under its canonical phone and counting
every successful parse (`loaded_count += 1`, also on an overwrite). -/
def processLines (now : String) : List String → Directory → Nat → Directory × Nat
  | [], d, n => (d, n)
  | line :: rest, d, n =>
    match parseLine now line with
    | some (k, r) => processLines now rest (dirInsert d k r) (n + 1)
    | none => processLines now rest d n

/-- `load_clients_from_pipe_file` (`lines 457-601`) as a pure function
of the input text: the directory built from scratch and the returned
`loaded_count`. -/
def load_clients_from_pipe_file (now : String) (file_content : String) :
    Directory × Nat :=
  processLines now (loadLines file_content) [] 0

/-- `load_clients_from_pipe_file` as a state transition on the global
`clients_database`: `lines 459-460` rebind the global to a fresh empty
dict before the loop, so the prior directory is discarded unconditionally
and the new one is built from the empty dict. -/
def load_clients_state (_prior : Directory) (now : String) (file_content : String) :
    Directory × Nat :=
  processLines now (loadLines file_content) [] 0

/-- The key sequence of the directory, in insertion order. -/
def dirKeys (d : Directory) : List String :=
  d.map Prod.fst

/-- Lines that parse to a record, with their canonical keys, in order. -/
def parsedEntries (now : String) (file_content : String) : List (String × ClientRecord) :=
  (loadLines file_content).filterMap (parseLine now)

/-- Folding `dirInsert` over a list of parsed entries. -/
def dirInsertMany (d : Directory) : List (String × ClientRecord) → Directory
  | [] => d
  | p :: rest => dirInsertMany (dirInsert d p.1 p.2) rest

theorem dirLookup_dirInsert_self (d : Directory) (k : String) (v : ClientRecord) :
    dirLookup (dirInsert d k v) k = some v := by
  induction d with
  | nil => simp [dirInsert, dirLookup]
  | cons p rest ih =>
    obtain ⟨k0, v0⟩ := p
    by_cases h : k0 = k
    · simp [dirInsert, dirLookup, h]
    · simp [dirInsert, dirLookup, h, ih]

theorem dirLookup_dirInsert_ne (d : Directory) (k k' : String) (v : ClientRecord)
    (h : k' ≠ k) : dirLookup (dirInsert d k v) k' = dirLookup d k' := by
  have h' : k ≠ k' := Ne.symm h
  induction d with
  | nil => simp [dirInsert, dirLookup, h']
  | cons p rest ih =>
    obtain ⟨k0, v0⟩ := p
    by_cases h0 : k0 = k
    · subst h0
      simp [dirInsert, dirLookup, h']
    · simp [dirInsert, dirLookup, h0, ih]

theorem dirKeys_dirInsert_of_mem (d : Directory) (k : String) (v w : ClientRecord)
    (h : dirLookup d k = some w) : dirKeys (dirInsert d k v) = dirKeys d := by
  induction d with
  | nil => simp [dirLookup] at h
  | cons p rest ih =>
    obtain ⟨k0, v0⟩ := p
    by_cases h0 : k0 = k
    · simp [dirInsert, dirKeys, h0]
    · simp [dirLookup, h0] at h
      simp [dirInsert, dirKeys, h0]
      simpa [dirKeys] using ih h

theorem dirKeys_dirInsert_of_none (d : Directory) (k : String) (v : ClientRecord)
    (h : dirLookup d k = none) : dirKeys (dirInsert d k v) = dirKeys d ++ [k] := by
  induction d with
  | nil => simp [dirInsert, dirKeys]
  | cons p rest ih =>
    obtain ⟨k0, v0⟩ := p
    by_cases h0 : k0 = k
    · simp [dirLookup, h0] at h
    · simp [dirLookup, h0] at h
      simp [dirInsert, dirKeys, h0]
      simpa [dirKeys] using ih h

theorem length_dirInsert_of_mem (d : Directory) (k : String) (v w : ClientRecord)
    (h : dirLookup d k = some w) : (dirInsert d k v).length = d.length := by
  have := dirKeys_dirInsert_of_mem d k v w h
  have h1 : (dirKeys (dirInsert d k v)).length = (dirKeys d).length := by rw [this]
  simpa [dirKeys] using h1

theorem length_dirInsert_of_none (d : Directory) (k : String) (v : ClientRecord)
    (h : dirLookup d k = none) : (dirInsert d k v).length = d.length + 1 := by
  have := dirKeys_dirInsert_of_none d k v h
  have h1 : (dirKeys (dirInsert d k v)).length = (dirKeys d).length + 1 := by
    rw [this]; simp
  simpa [dirKeys] using h1

theorem length_dirInsert_le (d : Directory) (k : String) (v : ClientRecord) :
    (dirInsert d k v).length ≤ d.length + 1 := by
  cases h : dirLookup d k with
  | none => simp [length_dirInsert_of_none d k v h]
  | some w => simp [length_dirInsert_of_mem d k v w h]

theorem processLines_count (now : String) (lines : List String) :
    ∀ (d : Directory) (n : Nat),
      (processLines now lines d n).2 = n + (lines.filterMap (parseLine now)).length := by
  induction lines with
  | nil => intro d n; simp [processLines]
  | cons line rest ih =>
    intro d n
    cases h : parseLine now line with
    | none => simp [processLines, h, ih]
    | some p => simp [processLines, h, ih]; omega

theorem processLines_dir (now : String) (lines : List String) :
    ∀ (d : Directory) (n : Nat),
      (processLines now lines d n).1 = dirInsertMany d (lines.filterMap (parseLine now)) := by
  induction lines with
  | nil => intro d n; simp [processLines, dirInsertMany]
  | cons line rest ih =>
    intro d n
    cases h : parseLine now line with
    | none => simp [processLines, h, ih, dirInsertMany]
    | some p => simp [processLines, h, ih, dirInsertMany]

theorem dirInsertMany_length_le (ps : List (String × ClientRecord)) :
    ∀ d : Directory, (dirInsertMany d ps).length ≤ d.length + ps.length := by
  induction ps with
  | nil => intro d; simp [dirInsertMany]
  | cons p rest ih =>
    intro d
    have h1 := ih (dirInsert d p.1 p.2)
    have h2 := length_dirInsert_le d p.1 p.2
    simp only [dirInsertMany, List.length_cons]
    omega

theorem dirInsertMany_length_of_nodup (ps : List (String × ClientRecord))
    (hnd : (ps.map Prod.fst).Nodup) :
    ∀ d : Directory, (∀ p ∈ ps, dirLookup d p.1 = none) →
      (dirInsertMany d ps).length = d.length + ps.length := by
  induction ps with
  | nil => intro d _; simp [dirInsertMany]
  | cons p rest ih =>
    intro d hnone
    have hk : dirLookup d p.1 = none := hnone p (List.mem_cons_self p rest)
    have hnd' : (rest.map Prod.fst).Nodup := (List.nodup_cons.mp hnd).2
    have hnotin : p.1 ∉ rest.map Prod.fst := (List.nodup_cons.mp hnd).1
    have hstep : ∀ q ∈ rest, dirLookup (dirInsert d p.1 p.2) q.1 = none := by
      intro q hq
      have hne : q.1 ≠ p.1 := by
        intro he
        exact hnotin (he ▸ List.mem_map_of_mem Prod.fst hq)
      rw [dirLookup_dirInsert_ne d p.1 q.1 p.2 hne]
      exact hnone q (List.mem_cons_of_mem p hq)
    have := ih hnd' (dirInsert d p.1 p.2) hstep
    simp only [dirInsertMany]
    rw [this, length_dirInsert_of_none d p.1 p.2 hk]
    simp [Nat.add_assoc, Nat.add_comm 1 rest.length]

theorem asString_ne_empty (c : Char) (l : List Char) : (c :: l).asString ≠ "" := by
  intro h
  have h2 : ((c :: l).asString).toList = ("" : String).toList := by rw [h]
  simp [List.asString] at h2

theorem matchShape_eq_none_of_length (pfx : List Char) (n : Nat) (l : List Char)
    (h : l.length ≠ pfx.length + n) : matchShape pfx n l = none := by
  unfold matchShape
  by_cases ht : l.take pfx.length = pfx
  · have hge : pfx.length ≤ l.length := by
      have hlen := congrArg List.length ht
      simp [List.length_take] at hlen
      omega
    simp [ht]
    intro hlen
    exfalso
    omega
  · simp [ht]

theorem normalize_phone_empty : normalize_phone "" = none := rfl

/-- The spec shape asserted by C4 for the cleaned string: only digits,
possibly preceded by one plus sign in leading position. -/
def cleanedLeadingPlusShape (l : List Char) : Bool :=
  match l with
  | '+' :: rest => rest.all Char.isDigit
  | other => other.all Char.isDigit

theorem clean_phone_digits (t : List Char) (hd : t.all Char.isDigit = true) :
    (clean_phone ('0' :: t).asString).toList = '0' :: t := by
  simp [clean_phone, List.asString, String.toList]
  intro a ha
  exact Or.inl (List.all_eq_true.mp hd a ha)

theorem get_client_info_hit (db : Directory) (now phone n : String) (client : ClientRecord)
    (hn : normalize_phone phone = some n) (hl : dirLookup db n = some client) :
    get_client_info db now phone =
      (client,
       dirInsert db n
         { client with nb_appels := client.nb_appels + 1, dernier_appel := some now }) := by
  have hpne : phone ≠ "" := by
    intro h
    rw [h, normalize_phone_empty] at hn
    exact Option.noConfusion hn
  have hbeq : (phone == "") = false := by simpa using hpne
  simp [get_client_info, hbeq, hn, hl]

/-- The miss condition of `get_client_info`: either normalization fails
or the canonical key is not a directory key. -/
def lookupMiss (db : Directory) (phone : String) : Prop :=
  match normalize_phone phone with
  | none => True
  | some n => dirLookup db n = none

instance (db : Directory) (phone : String) : Decidable (lookupMiss db phone) := by
  unfold lookupMiss
  cases normalize_phone phone
  · exact inferInstance
  · exact inferInstance

/-- A sample ingested record and one-entry directory, used by the
concrete witnesses below. -/
def sampleRec : ClientRecord :=
  { create_unknown_client "0612345678" with statut := "Prospect" }

def sampleDb : Directory := [("0612345678", sampleRec)]

/-- A well-formed ingestion line whose IBAN resolves through the merged
bank table. -/
def exLine : String :=
  "0612345678|A B|c|d|e|Lyon (69001)|FR7630006000011234567890189|S"

/-- Two ingestion lines whose phones normalize to the same canonical
key, so the second overwrites the first. -/
def dupContent : String :=
  "0612345678|A B|c|d|e|f|FR7630006000011234567890189|S\n+33612345678|Z Y|c|d|e|f|FR76|S"

/-- Two ingestion lines with distinct canonical phones. -/
def distinctContent : String :=
  "0612345678|A B|c|d|e|f|FR7630006000011234567890189|S\n0698765432|Z Y|c|d|e|f||S"

/-- C1 (counterexample). At a concrete one-entry directory, a hit lookup
returns a record whose call-count is 0 while the stored record's
call-count after the lookup is 1: the returned copy does NOT reflect the
post-increment state, refuting the claim as stated. -/
theorem c1_counterexample :
    (get_client_info sampleDb "01/01/2025 10:00:00" "0612345678").1.nb_appels = 0 ∧
    (dirLookup (get_client_info sampleDb "01/01/2025 10:00:00" "0612345678").2
        "0612345678").map ClientRecord.nb_appels = some 1 ∧
    (0 : Nat) ≠ 1 := by
  decide

/-- C1 (amended). On a hit, lookup returns the copy of the stored record
taken BEFORE the mutation, and the stored record is then updated with an
incremented call-count and a fresh last-call timestamp; so the returned
copy reflects the pre-increment state. -/
theorem c1_lookup_hit_returns_preincrement_copy (db : Directory)
    (now phone n : String) (client : ClientRecord)
    (hn : normalize_phone phone = some n) (hl : dirLookup db n = some client) :
    get_client_info db now phone =
      (client,
       dirInsert db n
         { client with nb_appels := client.nb_appels + 1, dernier_appel := some now }) :=
  get_client_info_hit db now phone n client hn hl

/-- C1 (witness): the amended theorem applied at a concrete directory
and raw phone. -/
theorem c1_witness :
    get_client_info sampleDb "now" "06 12 34 56 78" =
      (sampleRec,
       dirInsert sampleDb "0612345678"
         { sampleRec with nb_appels := sampleRec.nb_appels + 1, dernier_appel := some "now" }) :=
  c1_lookup_hit_returns_preincrement_copy sampleDb "now" "06 12 34 56 78" "0612345678"
    sampleRec (by decide) (by decide)

/-- C2 (counterexample). `detect_bank ""` returns the empty-input label
"N/A", not the fixed invalid-IBAN label, refuting the claim at the
empty string. -/
theorem c2_counterexample :
    detect_bank "" = "N/A" ∧ ("N/A" : String) ≠ "IBAN invalide" := by
  decide

/-- C2 (amended). The empty string is caught by the empty-input guard
and classified "N/A"; "FR1" is classified with the fixed invalid-IBAN
label, as is every input whose canonical string starts with the French
prefix and has fewer than 14 characters. -/
theorem c2_empty_is_na_short_fr_is_invalid :
    detect_bank "" = "N/A" ∧
    detect_bank "FR1" = "IBAN invalide" ∧
    ∀ s : String, s ≠ "" → startsWithFR (clean_iban s).toList = true →
      (clean_iban s).toList.length < 14 → detect_bank s = "IBAN invalide" := by
  refine ⟨by decide, by decide, ?_⟩
  intro s hs hfr hlen
  have hbeq : (s == "") = false := by simpa using hs
  have hcne : clean_iban s ≠ "" := by
    intro h
    rw [h] at hfr
    exact absurd hfr (by decide)
  have hcbeq : (clean_iban s == "") = false := by simpa using hcne
  have hfr' : startsWithFR (clean_iban s).data = true := hfr
  have hlen' : (clean_iban s).length < 14 := hlen
  simp [detect_bank, hbeq, hcbeq, detect_local, hfr', hlen']

/-- C2 (witness): the amended statement's universal part applied at
"FR1". -/
theorem c2_witness : detect_bank "FR1" = "IBAN invalide" :=
  c2_empty_is_na_short_fr_is_invalid.2.2 "FR1" (by decide) (by decide) (by decide)

/-- C4 (counterexample). The cleaning step keeps a plus sign in
non-leading position: cleaning "1+2" yields "1+2", which is not of the
claimed shape (digits possibly preceded by one leading plus sign). -/
theorem c4_counterexample :
    clean_phone "1+2" = "1+2" ∧
    cleanedLeadingPlusShape (clean_phone "1+2").toList = false := by
  decide

/-- C4 (amended). The cleaning step removes every character except
digits and plus signs, keeping EVERY plus sign wherever it occurs: the
cleaned string consists only of digits and plus signs. -/
theorem c4_cleaning_keeps_digits_and_plus (s : String) :
    ((clean_phone s).toList.all (fun c => c.isDigit || c == '+')) = true := by
  apply List.all_eq_true.mpr
  intro a ha
  have ha' : a ∈ s.toList.filter (fun c => c.isDigit || c == '+') := by
    simpa [clean_phone, List.asString, String.toList] using ha
  exact (List.mem_filter.mp ha').2

/-- C8 (theorem). Every ten-character string of digits starting with a
zero is a fixed point of normalization: the cleaning step keeps it
unchanged, the first three shapes fail on length grounds, and the
fourth shape rewrites it to itself. -/
theorem c8_canonical_fixed_point (t : List Char) (h9 : t.length = 9)
    (hd : t.all Char.isDigit = true) :
    normalize_phone ('0' :: t).asString = some ('0' :: t).asString := by
  have hne : ('0' :: t).asString ≠ "" := asString_ne_empty _ _
  have hbeq : (('0' :: t).asString == "") = false := by simpa using hne
  have h1 : matchShape ['0', '0', '3', '3'] 9 ('0' :: t) = none :=
    matchShape_eq_none_of_length _ _ _ (by simp [h9])
  have h2 : matchShape ['+', '3', '3'] 9 ('0' :: t) = none :=
    matchShape_eq_none_of_length _ _ _ (by simp [h9])
  have h3 : matchShape ['3', '3'] 9 ('0' :: t) = none :=
    matchShape_eq_none_of_length _ _ _ (by simp [h9])
  have h4 : matchShape ['0'] 9 ('0' :: t) = some t := by
    simp [matchShape, h9, hd]
  have hacc : acceptGroup t = some ('0' :: t).asString := by
    simp [acceptGroup, h9]
  rw [normalize_phone]
  simp only [hbeq, Bool.false_eq_true, if_false, clean_phone_digits t hd,
    h1, h2, h3, h4, hacc, Option.bind, Option.orElse]

/-- C8 (witness): the fixed-point theorem applied at "0669290606". -/
theorem c8_witness :
    normalize_phone ('0' :: "669290606".toList).asString =
      some ('0' :: "669290606".toList).asString :=
  c8_canonical_fixed_point "669290606".toList (by decide) (by decide)

/-- C3 (counterexample). For a concrete well-formed line, the bank label
stored by the load path is the emoji-prefixed "🏦 HSBC France" while the
classifier `detect_bank` returns the bare "HSBC France" on the same IBAN
field: the stored label does not equal the classifier's result. -/
theorem c3_counterexample :
    (dirLookup (load_clients_from_pipe_file "T" exLine).1 "0612345678").map
        ClientRecord.iban = some "FR7630006000011234567890189" ∧
    (dirLookup (load_clients_from_pipe_file "T" exLine).1 "0612345678").map
        ClientRecord.banque = some "🏦 HSBC France" ∧
    detect_bank "FR7630006000011234567890189" = "HSBC France" ∧
    ("🏦 HSBC France" : String) ≠ "HSBC France" := by
  decide

/-- C3 (amended). The load path stores "N/A" for an empty IBAN field,
and for a non-empty field it stores the classifier's label prefixed
with the bank emoji — equal to `"🏦 " ++ detect_bank iban` whenever the
cleaned IBAN is non-empty; when a non-empty field cleans to the empty
string the two paths diverge (load stores "🏦 Banque étrangère" while
`detect_bank` returns "N/A"). -/
theorem c3_load_label_vs_classifier (iban : String) :
    (iban = "" → loadBankLabel iban = "N/A") ∧
    (iban ≠ "" → clean_iban iban ≠ "" →
      loadBankLabel iban = "🏦 " ++ detect_bank iban) ∧
    (iban ≠ "" → clean_iban iban = "" →
      loadBankLabel iban = "🏦 Banque étrangère" ∧ detect_bank iban = "N/A") := by
  refine ⟨?_, ?_, ?_⟩
  · intro h
    subst h
    rfl
  · intro h1 h2
    have hbeq : (iban == "") = false := by simpa using h1
    have hcbeq : (clean_iban iban == "") = false := by simpa using h2
    by_cases hfr : startsWithFR (clean_iban iban).data = true
    · by_cases hlen : (clean_iban iban).toList.length < 14
      · have hlen' : (clean_iban iban).length < 14 := hlen
        simp [loadBankLabel, detect_bank, detect_local, hbeq, hcbeq, hfr, hlen, hlen']
      · have hlen' : ¬ (clean_iban iban).length < 14 := hlen
        simp [loadBankLabel, detect_bank, detect_local, hbeq, hcbeq, hfr, hlen, hlen']
    · have hfr' : startsWithFR (clean_iban iban).data = false := by
        simpa using hfr
      simp [loadBankLabel, detect_bank, detect_local, hbeq, hcbeq, hfr']
  · intro h1 h2
    have hbeq : (iban == "") = false := by simpa using h1
    rw [loadBankLabel, detect_bank]
    simp [hbeq, h2, startsWithFR]

/-- C3 (witness): the amended equivalence applied at a concrete IBAN. -/
theorem c3_witness :
    loadBankLabel "FR7630006000011234567890189" =
      "🏦 " ++ detect_bank "FR7630006000011234567890189" :=
  (c3_load_label_vs_classifier "FR7630006000011234567890189").2.1
    (by decide) (by decide)

/-- C5 (counterexample). Two lines normalizing to the same canonical
phone: `load` returns 2 (the count of successfully parsed lines) while
the directory holds a single record, refuting "returned integer equals
stored-record count". -/
theorem c5_counterexample :
    (load_clients_from_pipe_file "T" dupContent).2 = 2 ∧
    (load_clients_from_pipe_file "T" dupContent).1.length = 1 ∧
    (2 : Nat) ≠ 1 := by
  decide

/-- C5 (amended). `load` returns the number of successfully parsed
lines; the directory size never exceeds that count, and equals it
exactly when the parsed lines have pairwise-distinct canonical phones
(in particular, N well-formed lines with distinct phones return N and
yield a directory of size N). -/
theorem c5_load_count_vs_directory_size (now content : String) :
    (load_clients_from_pipe_file now content).2 = (parsedEntries now content).length ∧
    (load_clients_from_pipe_file now content).1.length ≤
      (parsedEntries now content).length ∧
    (((parsedEntries now content).map Prod.fst).Nodup →
      (load_clients_from_pipe_file now content).1.length =
        (parsedEntries now content).length) := by
  refine ⟨?_, ?_, ?_⟩
  · simpa [parsedEntries] using processLines_count now (loadLines content) [] 0
  · have h1 := processLines_dir now (loadLines content) [] 0
    unfold load_clients_from_pipe_file
    rw [h1]
    simpa [parsedEntries] using
      dirInsertMany_length_le ((loadLines content).filterMap (parseLine now)) []
  · intro hnd
    unfold load_clients_from_pipe_file
    rw [processLines_dir]
    have h2 := dirInsertMany_length_of_nodup ((loadLines content).filterMap (parseLine now))
      (by simpa [parsedEntries] using hnd) []
      (by intro p _; simp [dirLookup])
    simpa [parsedEntries] using h2

/-- C5 (witness): the amended statement applied at two lines with
distinct canonical phones, discharging the distinctness hypothesis. -/
theorem c5_witness :
    (load_clients_from_pipe_file "T" distinctContent).1.length =
      (parsedEntries "T" distinctContent).length :=
  (c5_load_count_vs_directory_size "T" distinctContent).2.2 (by decide)

/-- C6 (theorem). In the sequential model, `load` never leaves the
directory partially replaced: the state after a load is exactly the
fully-new directory built from the input (the prior directory is
discarded unconditionally at entry), so it is always one of the two
states the claim allows. On `String` inputs every line-level failure
is swallowed and the loop is total, so no failing run exists. -/
theorem c6_load_replaces_wholesale (prior : Directory) (now content : String) :
    (load_clients_state prior now content).1 =
      (load_clients_from_pipe_file now content).1 ∧
    ((load_clients_state prior now content).1 =
        (load_clients_from_pipe_file now content).1 ∨
      (load_clients_state prior now content).1 = prior) :=
  ⟨rfl, Or.inl rfl⟩

/-- C7 (theorem). On normalization failure or directory miss, lookup
returns the synthesized record: status "Non référencé" (the Unknown
status), fixed placeholder identity fields, the raw input phone kept
verbatim, call-count 0, absent last call — and the directory is
returned unchanged (nothing is stored). -/
theorem c7_miss_returns_unknown_unstored (db : Directory) (now phone : String)
    (h : lookupMiss db phone) :
    get_client_info db now phone = (create_unknown_client phone, db) ∧
    (create_unknown_client phone).statut = "Non référencé" ∧
    (create_unknown_client phone).telephone = phone ∧
    (create_unknown_client phone).nb_appels = 0 ∧
    (create_unknown_client phone).dernier_appel = none ∧
    (create_unknown_client phone).nom = "INCONNU" ∧
    (create_unknown_client phone).prenom = "CLIENT" := by
  refine ⟨?_, rfl, rfl, rfl, rfl, rfl, rfl⟩
  unfold lookupMiss at h
  by_cases hp : phone = ""
  · simp [get_client_info, hp]
  · have hbeq : (phone == "") = false := by simpa using hp
    cases hn : normalize_phone phone with
    | none => simp [get_client_info, hbeq, hn]
    | some n =>
      rw [hn] at h
      simp [get_client_info, hbeq, hn, h]

/-- C7 (witness): the miss theorem applied on the empty directory at an
unnormalizable input. -/
theorem c7_witness :
    get_client_info [] "now" "123" = (create_unknown_client "123", []) ∧
    (create_unknown_client "123").statut = "Non référencé" ∧
    (create_unknown_client "123").telephone = "123" ∧
    (create_unknown_client "123").nb_appels = 0 ∧
    (create_unknown_client "123").dernier_appel = none ∧
    (create_unknown_client "123").nom = "INCONNU" ∧
    (create_unknown_client "123").prenom = "CLIENT" :=
  c7_miss_returns_unknown_unstored [] "now" "123" (by decide)

/-- C9 (theorem). A hit lookup is frame-preserving: the key sequence of
the directory is unchanged, the hit record is replaced by a record that
differs only in `nb_appels` and `dernier_appel`, and every other key
maps to the same record as before. -/
theorem c9_lookup_hit_frame (db : Directory) (now phone n : String)
    (client : ClientRecord)
    (hn : normalize_phone phone = some n) (hl : dirLookup db n = some client) :
    dirKeys (get_client_info db now phone).2 = dirKeys db ∧
    dirLookup (get_client_info db now phone).2 n =
      some { client with nb_appels := client.nb_appels + 1, dernier_appel := some now } ∧
    ∀ k, k ≠ n → dirLookup (get_client_info db now phone).2 k = dirLookup db k := by
  have hdb : (get_client_info db now phone).2 =
      dirInsert db n
        { client with nb_appels := client.nb_appels + 1, dernier_appel := some now } := by
    rw [get_client_info_hit db now phone n client hn hl]
  refine ⟨?_, ?_, ?_⟩
  · rw [hdb]
    exact dirKeys_dirInsert_of_mem db n _ client hl
  · rw [hdb]
    exact dirLookup_dirInsert_self db n _
  · intro k hk
    rw [hdb]
    exact dirLookup_dirInsert_ne db n k _ hk

/-- C9 (witness): the frame theorem applied at a concrete directory. -/
theorem c9_witness :
    dirKeys (get_client_info sampleDb "now" "+33612345678").2 = dirKeys sampleDb ∧
    dirLookup (get_client_info sampleDb "now" "+33612345678").2 "0612345678" =
      some
        { sampleRec with
          nb_appels := sampleRec.nb_appels + 1
          dernier_appel := some "now" } ∧
    ∀ k, k ≠ "0612345678" →
      dirLookup (get_client_info sampleDb "now" "+33612345678").2 k =
        dirLookup sampleDb k :=
  c9_lookup_hit_frame sampleDb "now" "+33612345678" "0612345678" sampleRec
    (by decide) (by decide)

/-- C10 (theorem). In the merged table `{**local_banks, **codes_ca}` a
`codes_ca` binding always overrides a `local_banks` binding for the same
key; the codes 30002, 11315, 13506, 17906 and 18206 are bound in both
tables and resolve to their Crédit Agricole entry, and a French IBAN
with branch code 30002 classifies as "Crédit Agricole", not as Société
Générale or LCL. -/
theorem c10_codes_ca_precedence :
    (∀ k : String, pyDictGet codes_ca k ≠ none →
      all_banks_get k = pyDictGet codes_ca k) ∧
    pyDictGet local_banks "30002" = some "LCL - Le Crédit Lyonnais" ∧
    pyDictGet codes_ca "30002" = some "Crédit Agricole" ∧
    all_banks_get "30002" = some "Crédit Agricole" ∧
    pyDictGet local_banks "11315" = some "Caisse d\x27Épargne Loire-Centre" ∧
    all_banks_get "11315" = some "Crédit Agricole" ∧
    pyDictGet local_banks "13506" = some "Crédit du Nord" ∧
    all_banks_get "13506" = some "Crédit Agricole Languedoc" ∧
    pyDictGet local_banks "17906" = some "Caisse d\x27Épargne Rhône Alpes" ∧
    all_banks_get "17906" = some "Crédit Agricole Anjou Maine" ∧
    pyDictGet local_banks "18206" = some "N26" ∧
    all_banks_get "18206" = some "Crédit Agricole Nord-Est" ∧
    detect_bank "FR7630002000011234567890189" = "Crédit Agricole" ∧
    detect_bank "FR7630002000011234567890189" ≠ "Société Générale" ∧
    detect_bank "FR7630002000011234567890189" ≠ "LCL - Le Crédit Lyonnais" := by
  refine ⟨?_, by decide, by decide, by decide, by decide, by decide, by decide,
    by decide, by decide, by decide, by decide, by decide, by decide, by decide,
    by decide⟩
  intro k h
  unfold all_banks_get
  cases hc : pyDictGet codes_ca k with
  | none => exact absurd hc h
  | some v => rfl

/-- C10 (witness): the precedence statement applied at the code 13335,
which is bound in `codes_ca`. -/
theorem c10_witness : all_banks_get "13335" = pyDictGet codes_ca "13335" :=
  c10_codes_ca_precedence.1 "13335" (by decide)

end RenderOvh
